import Mathlib

/-!
Verification of the Satellite-Orbit backend orbital-mechanics module.

Shallow embedding of `backend/models.py` (`Satellite.calculate_period`) and
`backend/satellite_service.py` (`SatelliteService.calculate_orbital_position`,
`calculate_velocity`, `generate_orbit_path`, `validate_orbital_parameters`).

Python floats are modelled as real numbers, except in the validator, which
only compares numbers and is modelled over ℚ so that it stays executable.
Python float `%` with a positive divisor is `a - b * ⌊a / b⌋` (`fmod` below);
`x ** 0.5` on a nonnegative float is `Real.sqrt`; `math.radians d` is
`d * π / 180`.  Python `/` raises `ZeroDivisionError` on a zero divisor; this
is modelled by `pydiv : ℝ → ℝ → Option ℝ` at the one division whose divisor is
caller-supplied data (the time step of `generate_orbit_path`); elsewhere the
divisors are shown nonzero under the documented domain gate.
-/

namespace SatelliteOrbit

/-- `models.py`, `class Position`: Cartesian triple in render units. -/
structure Position where
  x : ℝ
  y : ℝ
  z : ℝ

/-- `models.py`, `class Velocity`: Cartesian triple in render units per second. -/
structure Velocity where
  x : ℝ
  y : ℝ
  z : ℝ

/-- `models.py`, `class Satellite` — the fields entering the computations
(`id`, `created_at` and `custom_params` carry no mathematical content). -/
structure Satellite where
  name : String
  type : String
  altitude : ℝ
  inclination : ℝ
  eccentricity : ℝ
  color : String
  description : String
  active : Bool
  period : ℝ

/-- Python float `%` for the positive divisors used here: `a - b * ⌊a / b⌋`. -/
noncomputable def fmod (a b : ℝ) : ℝ := a - b * (Int.floor (a / b) : ℝ)

/-- `math.radians`: degrees to radians. -/
noncomputable def radians (deg : ℝ) : ℝ := deg * Real.pi / 180

/-- `models.py`, `Satellite.calculate_period` as a function of the altitude it
reads: `period_seconds = 2 * 3.14159 * ((semi_major_axis ** 3 / mu) ** 0.5)`,
returned in minutes.  Note the source writes the literal `3.14159`, not `π`. -/
noncomputable def calculate_period (altitude : ℝ) : ℝ :=
  let earth_radius : ℝ := 6371
  let mu : ℝ := 398600.4418
  let semi_major_axis := earth_radius + altitude
  let period_seconds := 2 * 3.14159 * Real.sqrt (semi_major_axis ^ 3 / mu)
  period_seconds / 60

/-- The period formula as the spec states it (computePeriodMinutes, section
4.1): `2π·sqrt((bodyRadius + altitude)³/μ)/60` with an exact `π`.  Written
from the spec's words, to be compared with `calculate_period`. -/
noncomputable def computePeriodMinutes_spec (altitude : ℝ) : ℝ :=
  2 * Real.pi * Real.sqrt ((6371 + altitude) ^ 3 / 398600.4418) / 60

/-- C1 counterexample: at altitude 408 `calculate_period` does not equal the
spec's `2π·sqrt((6371+408)³/398600.4418)/60`, because the source multiplies by
the literal `3.14159` instead of `π`. -/
theorem calculate_period_ne_spec_at_408 :
    calculate_period 408 ≠ computePeriodMinutes_spec 408 := by
  intro h
  have hcode : calculate_period 408
      = 2 * 3.14159 * Real.sqrt ((6371 + 408) ^ 3 / 398600.4418) / 60 := rfl
  have hspec : computePeriodMinutes_spec 408
      = 2 * Real.pi * Real.sqrt ((6371 + 408) ^ 3 / 398600.4418) / 60 := rfl
  rw [hcode, hspec] at h
  have hS : 0 < Real.sqrt ((6371 + 408) ^ 3 / 398600.4418) := by
    apply Real.sqrt_pos.mpr
    positivity
  have h1 : (3.141592 : ℝ) < Real.pi := Real.pi_gt_d6
  nlinarith [mul_pos (show (0:ℝ) < Real.pi - 3.14159 by nlinarith) hS]

/-- C1 (amended): for every altitude, `calculate_period` returns
`2·3.14159·sqrt((6371+altitude)³/398600.4418)/60` — the source hard-codes
`3.14159` in place of `π` — and the result is within ±0.01% of the spec's
`2π·sqrt((6371+altitude)³/398600.4418)/60`; in particular at altitude 408. -/
theorem calculate_period_within_tolerance (altitude : ℝ) :
    calculate_period altitude
      = 2 * 3.14159 * Real.sqrt ((6371 + altitude) ^ 3 / 398600.4418) / 60 ∧
    |calculate_period altitude - computePeriodMinutes_spec altitude|
      ≤ (0.01 / 100) * computePeriodMinutes_spec altitude := by
  constructor
  · rfl
  · have hcode : calculate_period altitude
        = 2 * 3.14159 * Real.sqrt ((6371 + altitude) ^ 3 / 398600.4418) / 60 := rfl
    have hspec : computePeriodMinutes_spec altitude
        = 2 * Real.pi * Real.sqrt ((6371 + altitude) ^ 3 / 398600.4418) / 60 := rfl
    have hS0 : 0 ≤ Real.sqrt ((6371 + altitude) ^ 3 / 398600.4418) :=
      Real.sqrt_nonneg _
    have h1 : (3.141592 : ℝ) < Real.pi := Real.pi_gt_d6
    have h2 : Real.pi < 3.141593 := Real.pi_lt_d6
    have hd1 : (0:ℝ) ≤ Real.pi - 3.14159 := by nlinarith
    have hd2 : (0:ℝ) ≤ 3.14159 - 0.9999 * Real.pi := by nlinarith
    have hm1 := mul_nonneg hS0 hd1
    have hm2 := mul_nonneg hS0 hd2
    have hnp : calculate_period altitude - computePeriodMinutes_spec altitude ≤ 0 := by
      rw [hcode, hspec]
      nlinarith [hm1]
    rw [abs_of_nonpos hnp, hcode, hspec]
    nlinarith [hm2]

/-- `satellite_service.py`, `SatelliteService.calculate_orbital_position`
without `custom_params` overrides (the claims pass elements directly). -/
noncomputable def calculate_orbital_position (sat : Satellite) (time_seconds : ℝ) : Position :=
  let earth_radius : ℝ := 6371
  let total_radius := earth_radius + sat.altitude
  let period_seconds := sat.period * 60
  let mean_motion := (2 * Real.pi) / period_seconds
  let mean_anomaly := fmod (mean_motion * time_seconds) (2 * Real.pi)
  let true_anomaly := mean_anomaly + (2 * sat.eccentricity * Real.sin mean_anomaly)
  let x := total_radius * Real.cos true_anomaly
  let y := total_radius * Real.sin true_anomaly
  let inclination_rad := radians sat.inclination
  let z := y * Real.sin inclination_rad
  let y_inclined := y * Real.cos inclination_rad
  let scale := 5 / earth_radius
  { x := x * scale, y := y_inclined * scale, z := z * scale }

/-- `satellite_service.py`, `SatelliteService.calculate_velocity` without
`custom_params` overrides. -/
noncomputable def calculate_velocity (sat : Satellite) (time_seconds : ℝ) : Velocity :=
  let earth_radius : ℝ := 6371
  let total_radius := earth_radius + sat.altitude
  let mu : ℝ := 398600.4418
  let orbital_speed := Real.sqrt (mu / total_radius)
  let scale := 5 / earth_radius
  let period_seconds := sat.period * 60
  let angular_velocity := (2 * Real.pi) / period_seconds
  let angle := fmod (angular_velocity * time_seconds) (2 * Real.pi)
  { x := -orbital_speed * Real.sin angle * scale
    y := orbital_speed * Real.cos angle * scale
    z := 0 }

/-- The position computation as the spec's step list states it (section 4.1
computePosition, steps 1-7), written from the spec's words for comparison
with `calculate_orbital_position`. -/
noncomputable def computePosition_spec
    (altitude inclination eccentricity period t : ℝ) : Position :=
  let meanAnomaly := fmod ((2 * Real.pi) / (period * 60) * t) (2 * Real.pi)
  let trueAnomaly := meanAnomaly + 2 * eccentricity * Real.sin meanAnomaly
  let radius := 6371 + altitude
  let x := radius * Real.cos trueAnomaly
  let y := radius * Real.sin trueAnomaly
  let inclinationRad := inclination * Real.pi / 180
  let z := y * Real.sin inclinationRad
  let yRot := y * Real.cos inclinationRad
  { x := x * (5 / 6371), y := yRot * (5 / 6371), z := z * (5 / 6371) }

/-- C3: `calculate_orbital_position` is exactly the composition of the spec's
steps: wrapped mean anomaly, first-order eccentricity correction, planar
coordinates at radius `6371 + altitude`, rotation about the x-axis by the
inclination in radians, and uniform scaling by the constant `5/6371`. -/
theorem calculate_orbital_position_eq_spec (sat : Satellite) (t : ℝ) :
    calculate_orbital_position sat t
      = computePosition_spec sat.altitude sat.inclination sat.eccentricity sat.period t := rfl

/-- Velocity magnitude helper: the squared components always sum to the
square of `sqrt(μ / (6371 + altitude)) · (5/6371)`. -/
theorem velocity_norm_eq (sat : Satellite) (t : ℝ) :
    Real.sqrt ((calculate_velocity sat t).x ^ 2 + (calculate_velocity sat t).y ^ 2
        + (calculate_velocity sat t).z ^ 2)
      = Real.sqrt (398600.4418 / (6371 + sat.altitude)) * (5 / 6371) := by
  have hx : (calculate_velocity sat t).x
      = -Real.sqrt (398600.4418 / (6371 + sat.altitude)) *
        Real.sin (fmod ((2 * Real.pi) / (sat.period * 60) * t) (2 * Real.pi)) * (5 / 6371) := rfl
  have hy : (calculate_velocity sat t).y
      = Real.sqrt (398600.4418 / (6371 + sat.altitude)) *
        Real.cos (fmod ((2 * Real.pi) / (sat.period * 60) * t) (2 * Real.pi)) * (5 / 6371) := rfl
  have hz : (calculate_velocity sat t).z = 0 := rfl
  rw [hx, hy, hz]
  set s := Real.sqrt (398600.4418 / (6371 + sat.altitude)) with hs
  set θ := fmod ((2 * Real.pi) / (sat.period * 60) * t) (2 * Real.pi) with hθ
  have hsum : (-s * Real.sin θ * (5 / 6371)) ^ 2 + (s * Real.cos θ * (5 / 6371)) ^ 2
      + (0:ℝ) ^ 2 = (Real.sin θ ^ 2 + Real.cos θ ^ 2) * (s * (5 / 6371)) ^ 2 := by ring
  rw [hsum, Real.sin_sq_add_cos_sq, one_mul]
  exact Real.sqrt_sq (by positivity)

/-- C6: the velocity's z-component is exactly 0 (the inclination rotation is
never applied to velocity), and its magnitude equals
`sqrt(μ/(6371+altitude))·(5/6371)` independently of the time, so the
magnitudes at any two times agree (circular-speed invariant). -/
theorem calculate_velocity_z_zero_and_const_speed (sat : Satellite) (t t' : ℝ) :
    (calculate_velocity sat t).z = 0 ∧
    Real.sqrt ((calculate_velocity sat t).x ^ 2 + (calculate_velocity sat t).y ^ 2
        + (calculate_velocity sat t).z ^ 2)
      = Real.sqrt (398600.4418 / (6371 + sat.altitude)) * (5 / 6371) ∧
    Real.sqrt ((calculate_velocity sat t).x ^ 2 + (calculate_velocity sat t).y ^ 2
        + (calculate_velocity sat t).z ^ 2)
      = Real.sqrt ((calculate_velocity sat t').x ^ 2 + (calculate_velocity sat t').y ^ 2
        + (calculate_velocity sat t').z ^ 2) := by
  refine ⟨rfl, velocity_norm_eq sat t, ?_⟩
  rw [velocity_norm_eq sat t, velocity_norm_eq sat t']

/-- Adding the (nonzero) divisor to the dividend leaves `fmod` unchanged. -/
theorem fmod_add_same (x b : ℝ) (hb : b ≠ 0) : fmod (x + b) b = fmod x b := by
  unfold fmod
  rw [add_div, div_self hb, Int.floor_add_one]
  push_cast
  ring

/-- C5: for a positive period, the position one full period (in seconds)
later coincides with the current one — `calculate_orbital_position` is
periodic with period `period · 60` seconds. -/
theorem calculate_orbital_position_periodic (sat : Satellite) (t : ℝ)
    (h : 0 < sat.period) :
    calculate_orbital_position sat (t + sat.period * 60)
      = calculate_orbital_position sat t := by
  have hP : sat.period * 60 ≠ 0 := by positivity
  have harg : (2 * Real.pi) / (sat.period * 60) * (t + sat.period * 60)
      = (2 * Real.pi) / (sat.period * 60) * t + 2 * Real.pi := by
    field_simp
    ring
  have h2π : (2 * Real.pi) ≠ 0 := by positivity
  simp only [calculate_orbital_position]
  rw [harg, fmod_add_same _ _ h2π]

/-- The source's period is positive for any altitude above the validation
floor (in fact for any altitude above `-6371`). -/
theorem calculate_period_pos (altitude : ℝ) (h : 150 ≤ altitude) :
    0 < calculate_period altitude := by
  have hbase : (0:ℝ) < (6371 + altitude) ^ 3 / 398600.4418 := by
    have : (0:ℝ) < 6371 + altitude := by linarith
    positivity
  have hS : 0 < Real.sqrt ((6371 + altitude) ^ 3 / 398600.4418) :=
    Real.sqrt_pos.mpr hbase
  have : calculate_period altitude
      = 2 * 3.14159 * Real.sqrt ((6371 + altitude) ^ 3 / 398600.4418) / 60 := rfl
  rw [this]
  positivity

/-- C9: every altitude passing validation (altitude ≥ 150) yields a strictly
positive `calculate_period`. -/
theorem calculate_period_pos_of_valid_altitude (altitude : ℝ) (h : 150 ≤ altitude) :
    0 < calculate_period altitude :=
  calculate_period_pos altitude h

/-- C9 witness at the ISS altitude 408. -/
theorem calculate_period_pos_of_valid_altitude_witness :
    (150:ℝ) ≤ 408 ∧ 0 < calculate_period 408 :=
  ⟨by norm_num, calculate_period_pos_of_valid_altitude 408 (by norm_num)⟩

/-- C8: under the domain gate `150 ≤ altitude ≤ 35786` and with the period
computed by `calculate_period`, the two data-dependent divisors of
`calculate_orbital_position` and `calculate_velocity` are well-defined: the
radius `6371 + altitude` is positive and `period · 60` is nonzero. -/
theorem division_safety (altitude : ℝ) (h1 : 150 ≤ altitude) (h2 : altitude ≤ 35786) :
    0 < 6371 + altitude ∧ calculate_period altitude * 60 ≠ 0 := by
  refine ⟨by linarith, ?_⟩
  have := calculate_period_pos altitude h1
  positivity

/-- C8 witness at the ISS altitude 408. -/
theorem division_safety_witness :
    (150:ℝ) ≤ 408 ∧ (408:ℝ) ≤ 35786 ∧
    (0 < 6371 + (408:ℝ) ∧ calculate_period 408 * 60 ≠ 0) :=
  ⟨by norm_num, by norm_num, division_safety 408 (by norm_num) (by norm_num)⟩

/-- A concrete ISS-like satellite record (from `get_default_satellites`) used
to instantiate the parametric theorems; its period field is set to 90 so
witnesses can check positivity numerically. -/
noncomputable def issSat : Satellite :=
  { name := "International Space Station"
    type := "Space Station"
    altitude := 408
    inclination := 51.6
    eccentricity := 0.0002
    color := "#00ff88"
    description := ""
    active := true
    period := 90 }

/-- C5 witness: periodicity at the ISS-like record with period 90 min, t = 5 s. -/
theorem calculate_orbital_position_periodic_witness :
    0 < issSat.period ∧
    calculate_orbital_position issSat (5 + issSat.period * 60)
      = calculate_orbital_position issSat 5 :=
  ⟨by norm_num [issSat], calculate_orbital_position_periodic issSat 5 (by norm_num [issSat])⟩

/-- Python `/`: raises ZeroDivisionError on a zero divisor, modelled as
`none`. -/
noncomputable def pydiv (a b : ℝ) : Option ℝ :=
  if b = 0 then none else some (a / b)

/-- `satellite_service.py`, `SatelliteService.generate_orbit_path` without
`custom_params` overrides: the time step is `period_seconds / points`, a
Python division that raises when `points = 0`, then one position per loop
iteration `i ∈ range points` at time `i * time_step`. -/
noncomputable def generate_orbit_path (sat : Satellite) (points : ℕ) : Option (List Position) :=
  let period_seconds := sat.period * 60
  match pydiv period_seconds (points : ℝ) with
  | none => none
  | some time_step =>
      some ((List.range points).map fun i : ℕ =>
        calculate_orbital_position sat ((i : ℝ) * time_step))

/-- C4: for a positive sample count N, `generate_orbit_path` returns exactly
N positions, the i-th being the position at time `i · (period·60/N)`; in
particular point 0 is the position at time 0. -/
theorem generate_orbit_path_spec (sat : Satellite) (N : ℕ) (hN : 0 < N) :
    ∃ L, generate_orbit_path sat N = some L ∧ L.length = N ∧
      (∀ i, ∀ hi : i < L.length, L.get ⟨i, hi⟩
        = calculate_orbital_position sat ((i : ℝ) * (sat.period * 60 / (N : ℝ)))) ∧
      calculate_orbital_position sat ((0 : ℝ) * (sat.period * 60 / (N : ℝ)))
        = calculate_orbital_position sat 0 := by
  have hN0 : ((N : ℝ)) ≠ 0 := Nat.cast_ne_zero.mpr hN.ne'
  refine ⟨(List.range N).map fun i : ℕ =>
      calculate_orbital_position sat ((i : ℝ) * (sat.period * 60 / (N : ℝ))),
    ?_, by simp, ?_, by norm_num⟩
  · simp [generate_orbit_path, pydiv, hN0]
  · intro i hi
    simp

/-- C4 witness: three path points for the ISS-like record. -/
theorem generate_orbit_path_spec_witness :
    0 < 3 ∧ ∃ L, generate_orbit_path issSat 3 = some L ∧ L.length = 3 ∧
      (∀ i, ∀ hi : i < L.length, L.get ⟨i, hi⟩
        = calculate_orbital_position issSat ((i : ℝ) * (issSat.period * 60 / ((3:ℕ) : ℝ)))) ∧
      calculate_orbital_position issSat ((0 : ℝ) * (issSat.period * 60 / ((3:ℕ) : ℝ)))
        = calculate_orbital_position issSat 0 :=
  ⟨by decide, generate_orbit_path_spec issSat 3 (by decide)⟩

/-- C10: with a sample count of 0 the time-step division `period·60 / 0`
fails (Python raises ZeroDivisionError, modelled as `none`) before any point
is produced — no empty sequence is returned. -/
theorem generate_orbit_path_zero_points (sat : Satellite) :
    generate_orbit_path sat 0 = none := by
  simp [generate_orbit_path, pydiv]

/-- Altitude-floor message of `validate_orbital_parameters`. -/
def msgAltLow : String := "Altitude must be above 150km (atmospheric drag)"

/-- Altitude-ceiling message of `validate_orbital_parameters`. -/
def msgAltHigh : String := "Altitude above 35,786km not supported in this simulation"

/-- Inclination-range message of `validate_orbital_parameters`. -/
def msgInc : String := "Inclination must be between 0° and 180°"

/-- Eccentricity-range message of `validate_orbital_parameters`. -/
def msgEcc : String := "Eccentricity must be between 0 and 1 (elliptical orbit)"

/-- The dictionary returned by `validate_orbital_parameters`. -/
structure ValidationResult where
  valid : Bool
  errors : List String
  warnings : List String

/-- `satellite_service.py`, `SatelliteService.validate_orbital_parameters`:
errors are appended in source order (altitude `if/elif`, then inclination,
then eccentricity) and `valid` is `len(errors) == 0`.  The function only
compares its arguments, so it is modelled over ℚ to stay executable. -/
def validate_orbital_parameters (altitude inclination eccentricity : ℚ) : ValidationResult :=
  let errors : List String :=
    (if altitude < 150 then [msgAltLow]
     else if altitude > 35786 then [msgAltHigh]
     else [])
    ++ (if ¬ (0 ≤ inclination ∧ inclination ≤ 180) then [msgInc] else [])
    ++ (if ¬ (0 ≤ eccentricity ∧ eccentricity < 1) then [msgEcc] else [])
  { valid := errors.length == 0, errors := errors, warnings := [] }

theorem msg_ne_low_high : msgAltLow ≠ msgAltHigh := by decide

theorem msg_ne_low_inc : msgAltLow ≠ msgInc := by decide

theorem msg_ne_low_ecc : msgAltLow ≠ msgEcc := by decide

theorem msg_ne_high_inc : msgAltHigh ≠ msgInc := by decide

theorem msg_ne_high_ecc : msgAltHigh ≠ msgEcc := by decide

theorem msg_ne_inc_ecc : msgInc ≠ msgEcc := by decide

/-- C2: validation succeeds exactly on `150 ≤ altitude ≤ 35786`,
`0 ≤ inclination ≤ 180` and `0 ≤ eccentricity < 1`; below 150 km the errors
contain a message with the substring "150km"; and the four concrete spec
examples behave as stated. -/
theorem validate_orbital_parameters_spec (a i e : ℚ) :
    ((validate_orbital_parameters a i e).valid = true ↔
      (150 ≤ a ∧ a ≤ 35786 ∧ 0 ≤ i ∧ i ≤ 180 ∧ 0 ≤ e ∧ e < 1)) ∧
    (a < 150 → msgAltLow ∈ (validate_orbital_parameters a i e).errors ∧
      List.IsInfix "150km".toList msgAltLow.toList) ∧
    (validate_orbital_parameters 149.9 45 0.1).valid = false ∧
    msgAltLow ∈ (validate_orbital_parameters 149.9 45 0.1).errors ∧
    (validate_orbital_parameters 35785 180 0.99).valid = true ∧
    (validate_orbital_parameters 500 200 0.5).valid = false ∧
    (validate_orbital_parameters 500 45 1).valid = false := by
  have hinf : List.IsInfix "150km".toList msgAltLow.toList :=
    ⟨"Altitude must be above ".toList, " (atmospheric drag)".toList, by decide⟩
  have hv : (validate_orbital_parameters a i e).valid = true ↔
      (¬(a < 150) ∧ ¬(a > 35786)) ∧ (0 ≤ i ∧ i ≤ 180) ∧ (0 ≤ e ∧ e < 1) := by
    unfold validate_orbital_parameters
    by_cases h1 : a < 150 <;> by_cases h2 : a > 35786 <;>
      by_cases h3 : 0 ≤ i ∧ i ≤ 180 <;> by_cases h4 : 0 ≤ e ∧ e < 1 <;>
      simp [h1, h2, h3, h4]
  refine ⟨?_, fun h1 => ⟨?_, hinf⟩, by norm_num [validate_orbital_parameters],
    by norm_num [validate_orbital_parameters], by norm_num [validate_orbital_parameters],
    by norm_num [validate_orbital_parameters], by norm_num [validate_orbital_parameters]⟩
  · rw [hv]
    constructor
    · rintro ⟨⟨n1, n2⟩, hi, he⟩
      exact ⟨not_lt.mp n1, not_lt.mp n2, hi.1, hi.2, he.1, he.2⟩
    · rintro ⟨c1, c2, c3, c4, c5, c6⟩
      exact ⟨⟨not_lt.mpr c1, not_lt.mpr c2⟩, ⟨c3, c4⟩, ⟨c5, c6⟩⟩
  · unfold validate_orbital_parameters
    simp [h1]

/-- C2 witness: the 149.9 km example, with the "150km" substring fact. -/
theorem validate_orbital_parameters_spec_witness :
    (149.9:ℚ) < 150 ∧ (msgAltLow ∈ (validate_orbital_parameters 149.9 45 0.1).errors ∧
      List.IsInfix "150km".toList msgAltLow.toList) :=
  ⟨by norm_num, (validate_orbital_parameters_spec 149.9 45 0.1).2.1 (by norm_num)⟩

/-- C7: violations accumulate — the errors list has exactly one message per
violated rule (altitude gets one message, from the `if/elif`), and each rule's
message is present exactly when that rule is violated. -/
theorem validate_orbital_parameters_accumulates (a i e : ℚ) :
    ((validate_orbital_parameters a i e).errors.length
      = (if a < 150 ∨ a > 35786 then 1 else 0)
        + (if ¬ (0 ≤ i ∧ i ≤ 180) then 1 else 0)
        + (if ¬ (0 ≤ e ∧ e < 1) then 1 else 0)) ∧
    (msgAltLow ∈ (validate_orbital_parameters a i e).errors ↔ a < 150) ∧
    (msgAltHigh ∈ (validate_orbital_parameters a i e).errors ↔ (¬ a < 150 ∧ a > 35786)) ∧
    (msgInc ∈ (validate_orbital_parameters a i e).errors ↔ ¬ (0 ≤ i ∧ i ≤ 180)) ∧
    (msgEcc ∈ (validate_orbital_parameters a i e).errors ↔ ¬ (0 ≤ e ∧ e < 1)) := by
  unfold validate_orbital_parameters
  by_cases h1 : a < 150 <;> by_cases h2 : a > 35786 <;>
    by_cases h3 : 0 ≤ i ∧ i ≤ 180 <;> by_cases h4 : 0 ≤ e ∧ e < 1 <;>
    simp [h1, h2, h3, h4, msg_ne_low_high, msg_ne_low_inc, msg_ne_low_ecc,
      msg_ne_high_inc, msg_ne_high_ecc, msg_ne_inc_ecc,
      msg_ne_low_high.symm, msg_ne_low_inc.symm, msg_ne_low_ecc.symm,
      msg_ne_high_inc.symm, msg_ne_high_ecc.symm, msg_ne_inc_ecc.symm]

/-- C7 witness: inclination and eccentricity both out of range at
(500, 200, 1): two messages accumulate. -/
theorem validate_orbital_parameters_accumulates_witness :
    ((validate_orbital_parameters 500 200 1).errors.length
      = (if (500:ℚ) < 150 ∨ (500:ℚ) > 35786 then 1 else 0)
        + (if ¬ ((0:ℚ) ≤ 200 ∧ (200:ℚ) ≤ 180) then 1 else 0)
        + (if ¬ ((0:ℚ) ≤ 1 ∧ (1:ℚ) < 1) then 1 else 0)) ∧
    (msgAltLow ∈ (validate_orbital_parameters 500 200 1).errors ↔ (500:ℚ) < 150) ∧
    (msgAltHigh ∈ (validate_orbital_parameters 500 200 1).errors
      ↔ (¬ (500:ℚ) < 150 ∧ (500:ℚ) > 35786)) ∧
    (msgInc ∈ (validate_orbital_parameters 500 200 1).errors
      ↔ ¬ ((0:ℚ) ≤ 200 ∧ (200:ℚ) ≤ 180)) ∧
    (msgEcc ∈ (validate_orbital_parameters 500 200 1).errors
      ↔ ¬ ((0:ℚ) ≤ 1 ∧ (1:ℚ) < 1)) :=
  validate_orbital_parameters_accumulates 500 200 1

end SatelliteOrbit
